import Mathlib

/-
Verification of the batch-rescale script `scripts/blender-batch-rescale.py`.

The script runs inside Blender: it iterates a hard-coded configuration
(`SCALE_FACTORS`), skips filenames in `SKIP_PROPS`, and for each remaining
entry imports a GLB file, applies a uniform scale to every object, bakes the
transform, measures the first object's world-space bounding box, and exports
the result.  The host application's operators (file system, glTF import and
export) are modelled by an oracle `Env`; the pure parts (bounding-box
arithmetic, the scale/bake step, the driver loop and its counters) are
embedded directly.  Python name resolution for the identifier `Vector`,
which the source imports only inside `main`'s local scope, is modelled
explicitly so that the `NameError` behaviour of `get_bounding_dimensions`
is derived rather than assumed.

Coordinates are rationals; Blender's floats carry no claim-relevant
rounding behaviour here.
-/

/-- A 3-component vector, as `mathutils.Vector` restricted to the xyz
coordinates used by the script. -/
structure V3 where
  x : ℚ
  y : ℚ
  z : ℚ
deriving DecidableEq

/-- The rows 0..2 of a 4x4 affine world matrix (`mathutils.Matrix`).  The
bottom row of an affine transform is fixed at (0,0,0,1) and the script never
reads it, so it is not represented. -/
structure Mat4 where
  m00 : ℚ
  m01 : ℚ
  m02 : ℚ
  m03 : ℚ
  m10 : ℚ
  m11 : ℚ
  m12 : ℚ
  m13 : ℚ
  m20 : ℚ
  m21 : ℚ
  m22 : ℚ
  m23 : ℚ
deriving DecidableEq

/-- The identity world matrix. -/
def idMat : Mat4 := ⟨1, 0, 0, 0, 0, 1, 0, 0, 0, 0, 1, 0⟩

/-- Diagonal scale matrix for a per-axis scale vector, as Blender composes an
object's scale component into its world matrix. -/
def scaleMat (s : V3) : Mat4 := ⟨s.x, 0, 0, 0, 0, s.y, 0, 0, 0, 0, s.z, 0⟩

/-- Composition of two affine matrices (implicit bottom row (0,0,0,1)). -/
def matMulAffine (a b : Mat4) : Mat4 :=
  ⟨a.m00 * b.m00 + a.m01 * b.m10 + a.m02 * b.m20,
   a.m00 * b.m01 + a.m01 * b.m11 + a.m02 * b.m21,
   a.m00 * b.m02 + a.m01 * b.m12 + a.m02 * b.m22,
   a.m00 * b.m03 + a.m01 * b.m13 + a.m02 * b.m23 + a.m03,
   a.m10 * b.m00 + a.m11 * b.m10 + a.m12 * b.m20,
   a.m10 * b.m01 + a.m11 * b.m11 + a.m12 * b.m21,
   a.m10 * b.m02 + a.m11 * b.m12 + a.m12 * b.m22,
   a.m10 * b.m03 + a.m11 * b.m13 + a.m12 * b.m23 + a.m13,
   a.m20 * b.m00 + a.m21 * b.m10 + a.m22 * b.m20,
   a.m20 * b.m01 + a.m21 * b.m11 + a.m22 * b.m21,
   a.m20 * b.m02 + a.m21 * b.m12 + a.m22 * b.m22,
   a.m20 * b.m03 + a.m21 * b.m13 + a.m22 * b.m23 + a.m23⟩

/-- Line 75 of the script: `worldify = lambda p: om @ Vector(p[:])`.
`mathutils` multiplies a 4x4 matrix with a 3-component vector by extending it
with w = 1 and returning the xyz part. -/
def worldify (m : Mat4) (p : V3) : V3 :=
  ⟨m.m00 * p.x + m.m01 * p.y + m.m02 * p.z + m.m03,
   m.m10 * p.x + m.m11 * p.y + m.m12 * p.z + m.m13,
   m.m20 * p.x + m.m21 * p.y + m.m22 * p.z + m.m23⟩

/-- Python exceptions that the script can raise or catch.  Import and export
operator failures are caught generically (`except Exception`), so their
payload is irrelevant and the oracle below reports them as `Except Unit`. -/
inductive PyErr where
  | nameError
  | valueError
deriving DecidableEq

/-- Binary `max` as Python's `max` compares two reduction steps. -/
def qmax (a b : ℚ) : ℚ := if a ≤ b then b else a

/-- Binary `min` as in Python's `min` reduction. -/
def qmin (a b : ℚ) : ℚ := if a ≤ b then a else b

/-- Python's `max(first, *rest) - min(first, *rest)` for one axis
(lines 82-86 of the script). -/
def axisExtent (first : ℚ) (rest : List ℚ) : ℚ :=
  rest.foldl qmax first - rest.foldl qmin first

/-- A Blender scene object as far as the script touches it: the eight local
bounding-box corners (`obj.bound_box`), the location/rotation part of its
transform (`basis`), its scale component (`obj.scale`), and its mesh vertex
coordinates (mutated when a transform is applied). -/
structure Obj where
  bound_box : List V3
  basis : Mat4
  scale : V3
  verts : List V3

/-- `obj.matrix_world`: Blender composes the object's world matrix from its
location/rotation and its scale component. -/
def Obj.matrix_world (o : Obj) : Mat4 := matMulAffine o.basis (scaleMat o.scale)

/-- Names local to `get_bounding_dimensions` (its parameter and the variables
it assigns); the Python compiler gives them local scope. -/
def gbd_local_names : List String :=
  ["obj", "local_coords", "om", "worldify", "coords", "p", "v",
   "x_coords", "y_coords", "z_coords"]

/-- Names bound at the module scope of the script: the two imports at lines
14-15 and the module-level assignments and function definitions.  `Vector` is
not among them: line 144 (`from mathutils import Vector`) executes inside
`main`'s body and therefore binds `Vector` only as a local of `main`. -/
def module_scope_names : List String :=
  ["bpy", "os", "INPUT_DIR", "OUTPUT_DIR", "SCALE_FACTORS", "SKIP_PROPS",
   "clear_scene", "import_glb", "export_glb", "get_bounding_dimensions",
   "rescale_prop", "main"]

/-- The Python builtins the interpreter falls back to; none of them is named
`Vector`. -/
def python_builtin_names : List String :=
  ["print", "max", "min", "len", "range", "enumerate", "sorted", "open",
   "str", "int", "float", "list", "dict", "set", "tuple", "Exception"]

/-- The identifier whose resolution decides the fate of
`get_bounding_dimensions`. -/
def vectorName : String := "Vector"

/-- Python name resolution for a free name used inside
`get_bounding_dimensions` (a module-level function): its own local scope,
else the module globals, else the builtins.  `main`'s locals are not an
enclosing lexical scope of this function and are never consulted. -/
def gbd_resolves (n : String) : Bool :=
  (gbd_local_names ++ module_scope_names ++ python_builtin_names).contains n

/-- Body of `get_bounding_dimensions` (lines 71-86), parametrised by whether
the name `Vector` resolves at call time.  Evaluation order follows Python:
the list comprehension building `coords` applies `worldify` - and therefore
looks up `Vector` - once per corner, so with a non-empty `bound_box` an
unresolvable `Vector` raises `NameError` at the first corner.  With an empty
`bound_box` the comprehension never runs and `max([])` raises `ValueError`
instead.  When `Vector` resolves, the result is `max - min` per axis over
the world-transformed corners. -/
def gbd_aux (vectorBound : Bool) (o : Obj) : Except PyErr V3 :=
  match o.bound_box with
  | [] => Except.error PyErr.valueError
  | c :: cs =>
    if vectorBound then
      Except.ok
        ⟨axisExtent (worldify o.matrix_world c).x
           ((cs.map (fun p => worldify o.matrix_world p)).map V3.x),
         axisExtent (worldify o.matrix_world c).y
           ((cs.map (fun p => worldify o.matrix_world p)).map V3.y),
         axisExtent (worldify o.matrix_world c).z
           ((cs.map (fun p => worldify o.matrix_world p)).map V3.z)⟩
    else Except.error PyErr.nameError

/-- `get_bounding_dimensions` as the script actually has it: its body runs
with `Vector` resolved through the scopes visible to a module-level
function. -/
def get_bounding_dimensions (o : Obj) : Except PyErr V3 :=
  gbd_aux (gbd_resolves vectorName) o

/-- Line 121: `obj.scale = (scale_factor, scale_factor, scale_factor)` -
the previous scale component is overwritten, not multiplied. -/
def set_scale (f : ℚ) (o : Obj) : Obj := { o with scale := ⟨f, f, f⟩ }

/-- Component-wise product, used when a scale vector is baked into
coordinates. -/
def vmul (s p : V3) : V3 := ⟨s.x * p.x, s.y * p.y, s.z * p.z⟩

/-- Line 126: `bpy.ops.object.transform_apply(location=False,
rotation=False, scale=True)` on a selected object, per Blender's documented
semantics: the object's scale component is multiplied into its mesh vertex
coordinates (and hence into its local bounding box) and then reset to
(1,1,1); location and rotation are untouched. -/
def transform_apply_scale (o : Obj) : Obj :=
  { o with
    verts := o.verts.map (vmul o.scale),
    bound_box := o.bound_box.map (vmul o.scale),
    scale := ⟨1, 1, 1⟩ }

/-- Lines 119-126: the uniform rescale step.  The loop at lines 120-122 sets
every object's scale to the factor, then lines 125-126 select all objects
and apply (bake) their scale. -/
def rescale_step (f : ℚ) (objects : List Obj) : List Obj :=
  (objects.map (set_scale f)).map transform_apply_scale

/-- Line 22 of the script. -/
def INPUT_DIR : String := "C:/Users/ihelp/sticky3d/apps/web/public/models"

/-- Line 23 of the script. -/
def OUTPUT_DIR : String := "C:/Users/ihelp/sticky3d/apps/web/public/models_rescaled"

/-- Line 95: `os.path.join(INPUT_DIR, filename)`. -/
def inputPath (filename : String) : String := INPUT_DIR ++ "/" ++ filename

/-- Line 96: `os.path.join(OUTPUT_DIR, filename)`. -/
def outputPath (filename : String) : String := OUTPUT_DIR ++ "/" ++ filename

/-- Oracle for the host-provided operations.  `fileExists` is
`os.path.exists`.  `importResult path` is the outcome of `clear_scene()`
followed by `bpy.ops.import_scene.gltf(filepath=path)`: either an
exception, or the list of objects the cleared scene then contains
(`bpy.context.scene.objects`).  `exportResult path` is the outcome of
`bpy.ops.export_scene.gltf` to that path.  Exceptions from the operators
carry no information the script observes, hence `Except Unit`. -/
structure Env where
  fileExists : String → Bool
  importResult : String → Except Unit (List Obj)
  exportResult : String → Except Unit Unit

/-- Which of the three host operations a run of `rescale_prop` invoked:
the import operator (line 107), the scale-and-apply step (lines 119-126),
and the export operator (line 135). -/
structure OpTrace where
  importCalled : Bool
  rescaleCalled : Bool
  exportCalled : Bool
deriving DecidableEq

/-- `rescale_prop` (lines 88-140), instrumented with the trace of host
operations it invoked.  `Except.ok b` is a normal `return b`;
`Except.error e` is an exception escaping the function (only the
measurement at line 130 can produce one - the import and export calls sit
inside `try/except` blocks).  The match on `rescale_step scale_factor
objects` realises both the emptiness check at line 115 (a map is empty
exactly when `objects` is, and the source returns `False` before scaling in
that case) and `main_obj = objects[0]` at line 129. -/
def rescale_propT (env : Env) (filename : String) (scale_factor : ℚ) :
    Except PyErr Bool × OpTrace :=
  if env.fileExists (inputPath filename) = false then
    (Except.ok false, ⟨false, false, false⟩)
  else
    match env.importResult (inputPath filename) with
    | Except.error _ => (Except.ok false, ⟨true, false, false⟩)
    | Except.ok objects =>
      match rescale_step scale_factor objects with
      | [] => (Except.ok false, ⟨true, false, false⟩)
      | main_obj :: _ =>
        match get_bounding_dimensions main_obj with
        | Except.error e => (Except.error e, ⟨true, true, false⟩)
        | Except.ok _ =>
          match env.exportResult (outputPath filename) with
          | Except.error _ => (Except.ok false, ⟨true, true, true⟩)
          | Except.ok _ => (Except.ok true, ⟨true, true, true⟩)

/-- `rescale_prop` as the driver sees it: the returned value or the escaping
exception, without the instrumentation. -/
def rescale_prop (env : Env) (filename : String) (scale_factor : ℚ) :
    Except PyErr Bool :=
  (rescale_propT env filename scale_factor).1

/-- The three counters of `main` (lines 157-159). -/
structure Counters where
  success_count : ℕ
  failed_count : ℕ
  skipped_count : ℕ
deriving DecidableEq

/-- The driver loop of `main` (lines 162-171), instrumented with the list of
filenames for which `rescale_prop` was invoked.  An exception escaping
`rescale_prop` propagates out of the loop (there is no `try` around the call
at line 168), abandoning the remaining entries and the final summary. -/
def mainLoopT (env : Env) (skip : List String) :
    List (String × ℚ) → Counters → List String →
    Except PyErr Counters × List String
  | [], st, inv => (Except.ok st, inv)
  | (filename, scale_factor) :: rest, st, inv =>
    if filename ∈ skip then
      mainLoopT env skip rest
        { st with skipped_count := st.skipped_count + 1 } inv
    else
      match rescale_prop env filename scale_factor with
      | Except.error e => (Except.error e, inv ++ [filename])
      | Except.ok true =>
        mainLoopT env skip rest
          { st with success_count := st.success_count + 1 } (inv ++ [filename])
      | Except.ok false =>
        mainLoopT env skip rest
          { st with failed_count := st.failed_count + 1 } (inv ++ [filename])

/-- Lines 27-41: the configured scale factor per filename, in authoring
order. -/
def SCALE_FACTORS : List (String × ℚ) :=
  [("Computer-Mouse.glb", 1/10), ("Mousepad.glb", 3/10),
   ("Mug-supplies.glb", 2/25), ("Notebook.glb", 3/20), ("Pen.glb", 3/25),
   ("Rubber-Duck.glb", 3/50), ("Soda-Can.glb", 3/25),
   ("Sticky-notes-pad-thick.glb", 3/40), ("Sticky-notes-pad1.glb", 3/40),
   ("Tissue-Box.glb", 3/25), ("Monitor-large.glb", 3/5),
   ("Whiteboard1.glb", 9/10)]

/-- Lines 44-48: filenames excluded from processing. -/
def SKIP_PROPS : List String :=
  ["DeskTopPlane.glb", "lamp.glb", "monitor_processed.glb"]

/-- `main` (lines 142-184): run the driver loop over the configured entries
starting from zeroed counters.  The returned counters are the ones the final
summary prints when the loop completes.  (Named `script_main` because Lean
reserves `main`.) -/
def script_main (env : Env) : Except PyErr Counters × List String :=
  mainLoopT env SKIP_PROPS SCALE_FACTORS ⟨0, 0, 0⟩ []

/-- The three failure kinds named by the spec's failure-semantics sentence. -/
inductive FailCause where
  | missingFile
  | importExc
  | exportExc
deriving DecidableEq

/-- When an entry's processing fails with the given cause, read off the
script's control flow: the input file is absent (line 98); the file is
present but the import operator raises (line 106); or control reaches the
export operator (per the instrumentation trace) and it raises (line 134). -/
def failsWith (env : Env) (filename : String) (scale_factor : ℚ) :
    FailCause → Prop
  | FailCause.missingFile => env.fileExists (inputPath filename) = false
  | FailCause.importExc =>
      env.fileExists (inputPath filename) = true ∧
      env.importResult (inputPath filename) = Except.error ()
  | FailCause.exportExc =>
      (rescale_propT env filename scale_factor).2.exportCalled = true ∧
      env.exportResult (outputPath filename) = Except.error ()

/-- The verification measurement of lines 129-131: `main_obj = objects[0]`
followed by `get_bounding_dimensions(main_obj)`, taken on the scaled scene
and with the `Vector` name-resolution slip repaired (`gbd_aux true`) so that
the printed value exists.  `none` when the scene is empty. -/
def verification_measurement (f : ℚ) (objects : List Obj) :
    Option (Except PyErr V3) :=
  (rescale_step f objects).head?.map (fun main_obj => gbd_aux true main_obj)

/-- The unit cube: local bounding-box corners at plus or minus 1/2 on each
axis (Blender's corner ordering), identity location/rotation, unit scale. -/
def cubeCorners : List V3 :=
  [⟨-1/2, -1/2, -1/2⟩, ⟨-1/2, -1/2, 1/2⟩, ⟨-1/2, 1/2, 1/2⟩, ⟨-1/2, 1/2, -1/2⟩,
   ⟨1/2, -1/2, -1/2⟩, ⟨1/2, -1/2, 1/2⟩, ⟨1/2, 1/2, 1/2⟩, ⟨1/2, 1/2, -1/2⟩]

/-- A unit-cube object with identity world transform. -/
def unitCube : Obj :=
  { bound_box := cubeCorners, basis := idMat, scale := ⟨1, 1, 1⟩,
    verts := cubeCorners }

/-- Concrete oracle: no input file exists. -/
def envAllMissing : Env :=
  { fileExists := fun _ => false,
    importResult := fun _ => Except.error (),
    exportResult := fun _ => Except.ok () }

/-- Concrete oracle: every file exists and every import yields a scene
holding exactly one unit cube; export succeeds. -/
def envImportsCube : Env :=
  { fileExists := fun _ => true,
    importResult := fun _ => Except.ok [unitCube],
    exportResult := fun _ => Except.ok () }

/-- A filename used in concrete runs. -/
def fileA : String := "A.glb"

/-- A second filename used in concrete runs. -/
def fileB : String := "B.glb"

/-- A filename that appears in the skip list. -/
def fileSkip : String := "DeskTopPlane.glb"

/-- Concrete oracle: every file exists, but importing yields an empty scene;
export succeeds. -/
def envImportsNothing : Env :=
  { fileExists := fun _ => true,
    importResult := fun _ => Except.ok [],
    exportResult := fun _ => Except.ok () }

/-- `Vector` does not resolve in any scope visible to
`get_bounding_dimensions`, so with a non-empty `bound_box` the function
raises `NameError` at the first corner of the comprehension. -/
theorem gbd_nameError_of_ne_nil (o : Obj) (h : o.bound_box ≠ []) :
    get_bounding_dimensions o = Except.error PyErr.nameError := by
  have hv : gbd_resolves vectorName = false := by decide
  cases hb : o.bound_box with
  | nil => exact absurd hb h
  | cons c cs => simp [get_bounding_dimensions, gbd_aux, hb, hv]

/-- Any completed driver loop invoked `rescale_prop` for exactly the
non-skipped entries in order, added one to the skipped counter per skipped
entry, and added one to exactly one counter per entry overall. -/
theorem mainLoopT_ok_spec (env : Env) (skip : List String)
    (entries : List (String × ℚ)) :
    ∀ (st : Counters) (inv invOut : List String) (res : Counters),
      mainLoopT env skip entries st inv = (Except.ok res, invOut) →
      invOut = inv ++ (entries.filter (fun e => decide (e.1 ∉ skip))).map Prod.fst ∧
      res.skipped_count = st.skipped_count +
        (entries.filter (fun e => decide (e.1 ∈ skip))).length ∧
      res.success_count + res.failed_count + res.skipped_count =
        st.success_count + st.failed_count + st.skipped_count + entries.length := by
  induction entries with
  | nil =>
    intro st inv invOut res h
    simp [mainLoopT] at h
    obtain ⟨hres, hinv⟩ := h
    subst hres
    subst hinv
    simp
  | cons e rest ih =>
    intro st inv invOut res h
    obtain ⟨fn, f⟩ := e
    by_cases hsk : fn ∈ skip
    · simp only [mainLoopT, if_pos hsk] at h
      obtain ⟨h1, h2, h3⟩ := ih _ _ _ _ h
      refine ⟨?_, ?_, ?_⟩
      · simpa [List.filter_cons, hsk] using h1
      · simp only [List.filter_cons] at *
        simp [hsk] at h2 ⊢
        omega
      · simp at h3 ⊢
        omega
    · cases hr : rescale_prop env fn f with
      | error e2 => simp [mainLoopT, if_neg hsk, hr] at h
      | ok b =>
        cases b with
        | true =>
          simp only [mainLoopT, if_neg hsk, hr] at h
          obtain ⟨h1, h2, h3⟩ := ih _ _ _ _ h
          refine ⟨?_, ?_, ?_⟩
          · simpa [List.filter_cons, hsk, List.append_assoc] using h1
          · simp [List.filter_cons, hsk] at h2 ⊢
            omega
          · simp at h3 ⊢
            omega
        | false =>
          simp only [mainLoopT, if_neg hsk, hr] at h
          obtain ⟨h1, h2, h3⟩ := ih _ _ _ _ h
          refine ⟨?_, ?_, ?_⟩
          · simpa [List.filter_cons, hsk, List.append_assoc] using h1
          · simp [List.filter_cons, hsk] at h2 ⊢
            omega
          · simp at h3 ⊢
            omega

/-- C1: when a non-skipped entry's processing fails for one of the causes
the spec lists - the input file is missing, the import operator raises, or
(should control ever reach it) the export operator raises - the failure is
caught inside that asset's iteration: `rescale_prop` returns `False` rather
than letting an exception escape, the driver increments the failed counter,
and the loop continues with the remaining configured entries.  No failure of
these kinds terminates the batch run. -/
theorem C1_listed_failures_caught (env : Env) (skip : List String)
    (filename : String) (scale_factor : ℚ) (c : FailCause)
    (rest : List (String × ℚ)) (st : Counters) (inv : List String)
    (hns : filename ∉ skip) (hf : failsWith env filename scale_factor c) :
    rescale_prop env filename scale_factor = Except.ok false ∧
    mainLoopT env skip ((filename, scale_factor) :: rest) st inv =
      mainLoopT env skip rest { st with failed_count := st.failed_count + 1 }
        (inv ++ [filename]) := by
  have hok : rescale_prop env filename scale_factor = Except.ok false := by
    cases c with
    | missingFile =>
      simp only [failsWith] at hf
      simp [rescale_prop, rescale_propT, hf]
    | importExc =>
      obtain ⟨h1, h2⟩ := hf
      simp [rescale_prop, rescale_propT, h1, h2]
    | exportExc =>
      obtain ⟨hcall, herr⟩ := hf
      by_cases hfe : env.fileExists (inputPath filename) = false
      · simp [rescale_propT, hfe] at hcall
      · cases himp : env.importResult (inputPath filename) with
        | error u => simp [rescale_propT, hfe, himp] at hcall
        | ok objects =>
          cases hrs : rescale_step scale_factor objects with
          | nil => simp [rescale_propT, hfe, himp, hrs] at hcall
          | cons m ms =>
            cases hg : get_bounding_dimensions m with
            | error ge => simp [rescale_propT, hfe, himp, hrs, hg] at hcall
            | ok gd => simp [rescale_prop, rescale_propT, hfe, himp, hrs, hg, herr]
  exact ⟨hok, by simp [mainLoopT, hns, hok]⟩

/-- Witness for C1 at a concrete input: a missing input file is caught and
counted failed. -/
theorem C1_listed_failures_caught_witness :
    rescale_prop envAllMissing fileA 1 = Except.ok false ∧
    mainLoopT envAllMissing SKIP_PROPS [(fileA, 1)] ⟨0, 0, 0⟩ [] =
      mainLoopT envAllMissing SKIP_PROPS [] ⟨0, 1, 0⟩ [fileA] :=
  C1_listed_failures_caught envAllMissing SKIP_PROPS fileA 1 FailCause.missingFile
    [] ⟨0, 0, 0⟩ [] (by decide) rfl

/-- C2: evaluation of the claim's function at a concrete object (the unit
cube with identity world transform).  The claim says
`get_bounding_dimensions` returns the per-axis max minus min over the eight
world-transformed corners; the code instead raises `NameError`, because
`Vector` is bound only in `main`'s local scope and never in the module scope
this function resolves names in.  The second conjunct shows the same body
with the name resolved (`gbd_aux true`) does return exactly those extents,
here (1,1,1) - the claim describes the clear intent of the code. -/
theorem C2_dimensions_eval :
    get_bounding_dimensions unitCube = Except.error PyErr.nameError ∧
    gbd_aux true unitCube = Except.ok ⟨1, 1, 1⟩ := by
  constructor
  · rfl
  · norm_num [gbd_aux, unitCube, cubeCorners, axisExtent, qmax, qmin, worldify,
      Obj.matrix_world, matMulAffine, scaleMat, idMat]

/-- C3: evaluation at the claim's input with factor 2: importing a unit cube
and running `rescale_prop` raises `NameError` at the measurement (line 130)
instead of reporting dimensions, so the pipeline never reports (f, f, f).
The second conjunct shows the rescale step itself is correct: the
name-repaired measurement of the scaled cube is exactly (2, 2, 2), as the
claim intends. -/
theorem C3_unit_cube_pipeline_eval :
    rescale_propT envImportsCube fileA 2 =
      (Except.error PyErr.nameError, ⟨true, true, false⟩) ∧
    gbd_aux true (transform_apply_scale (set_scale 2 unitCube)) =
      Except.ok ⟨2, 2, 2⟩ := by
  constructor
  · rfl
  · norm_num [gbd_aux, unitCube, cubeCorners, axisExtent, qmax, qmin, worldify,
      Obj.matrix_world, matMulAffine, scaleMat, idMat, transform_apply_scale,
      set_scale, vmul]

/-- C4 counterexample: a configuration of N = 2 entries, M = 0 of them
skipped, where the first asset imports one (unit-cube) object.  The run
aborts with `NameError` at the first asset's measurement: `rescale_prop` is
invoked only for the first entry, not for all N minus M = 2 non-skipped
entries, and no final summary (hence no skipped counter) is ever printed.
This refutes the claim as stated, which quantifies over every
configuration. -/
theorem C4_aborted_run_counterexample :
    mainLoopT envImportsCube SKIP_PROPS [(fileA, 2), (fileB, 3)] ⟨0, 0, 0⟩ []
      = (Except.error PyErr.nameError, [fileA]) ∧
    [fileA] ≠ [fileA, fileB] := by
  constructor
  · rfl
  · decide

/-- C4 as amended: in every run of the batch driver that completes (reaches
the final summary), `rescale_prop` was invoked for exactly the non-skipped
configuration entries in order - N minus M of them - and the skipped counter
equals the number M of configured entries in the skip list. -/
theorem C4_completed_run_counts (env : Env) (skip : List String)
    (entries : List (String × ℚ)) (res : Counters) (invOut : List String)
    (h : mainLoopT env skip entries ⟨0, 0, 0⟩ [] = (Except.ok res, invOut)) :
    invOut = (entries.filter (fun e => decide (e.1 ∉ skip))).map Prod.fst ∧
    res.skipped_count = (entries.filter (fun e => decide (e.1 ∈ skip))).length := by
  obtain ⟨h1, h2, -⟩ := mainLoopT_ok_spec env skip entries ⟨0, 0, 0⟩ [] invOut res h
  exact ⟨by simpa using h1, by simpa using h2⟩

/-- Witness for the amended C4: two entries, one of them in the skip list,
against the all-files-missing oracle; the run completes with one invocation
and one skip. -/
theorem C4_completed_run_counts_witness :
    [fileA] = ([(fileA, (1:ℚ)), (fileSkip, 1)].filter
        (fun e => decide (e.1 ∉ SKIP_PROPS))).map Prod.fst ∧
    (1 : ℕ) = ([(fileA, (1:ℚ)), (fileSkip, 1)].filter
        (fun e => decide (e.1 ∈ SKIP_PROPS))).length := by
  have h := C4_completed_run_counts envAllMissing SKIP_PROPS
      [(fileA, 1), (fileSkip, 1)] ⟨0, 1, 1⟩ [fileA] rfl
  exact ⟨h.1, h.2⟩

/-- C5: for a non-skipped entry whose input file does not exist, the check at
line 98 returns `False` before anything else happens: the trace records that
neither the import operator nor the export operator (nor the rescale step)
was invoked, and the driver counts the entry as failed and moves on. -/
theorem C5_missing_input_no_operators (env : Env) (skip : List String)
    (filename : String) (scale_factor : ℚ) (rest : List (String × ℚ))
    (st : Counters) (inv : List String)
    (hns : filename ∉ skip)
    (hmiss : env.fileExists (inputPath filename) = false) :
    rescale_propT env filename scale_factor =
      (Except.ok false, ⟨false, false, false⟩) ∧
    mainLoopT env skip ((filename, scale_factor) :: rest) st inv =
      mainLoopT env skip rest { st with failed_count := st.failed_count + 1 }
        (inv ++ [filename]) := by
  have h1 : rescale_propT env filename scale_factor =
      (Except.ok false, ⟨false, false, false⟩) := by
    simp [rescale_propT, hmiss]
  exact ⟨h1, by simp [mainLoopT, hns, rescale_prop, h1]⟩

/-- Witness for C5 at a concrete missing file. -/
theorem C5_missing_input_no_operators_witness :
    rescale_propT envAllMissing fileB 1 =
      (Except.ok false, ⟨false, false, false⟩) ∧
    mainLoopT envAllMissing SKIP_PROPS [(fileB, 1)] ⟨1, 0, 0⟩ [] =
      mainLoopT envAllMissing SKIP_PROPS [] ⟨1, 1, 0⟩ [fileB] :=
  C5_missing_input_no_operators envAllMissing SKIP_PROPS fileB 1 [] ⟨1, 0, 0⟩ []
    (by decide) rfl

/-- C6: the uniform rescale step (set every object's scale to the factor on
all three axes, then apply the transform) leaves every object with stored
scale (1,1,1) and with its vertex coordinates multiplied by the factor. -/
theorem C6_rescale_bakes_scale (f : ℚ) (objects : List Obj) :
    List.Forall₂
      (fun o o2 => o2.scale = ⟨1, 1, 1⟩ ∧
        o2.verts = o.verts.map (fun v => ⟨f * v.x, f * v.y, f * v.z⟩))
      objects (rescale_step f objects) := by
  induction objects with
  | nil => simp [rescale_step]
  | cons o os ih =>
    simp only [rescale_step, List.map_cons]
    refine List.Forall₂.cons ⟨rfl, ?_⟩ ?_
    · simp [set_scale, transform_apply_scale, vmul]
    · simpa [rescale_step] using ih

/-- C7: the verification measurement of lines 129-131 (the value the print
would show, taken with the `Vector` name-resolution slip repaired so that a
value exists) is a function of the first imported object alone: replacing
every other imported object changes nothing, and the measurement equals the
measurement of the scaled first object. -/
theorem C7_measures_only_first_object (f : ℚ) (first : Obj)
    (rest rest' : List Obj) :
    verification_measurement f (first :: rest) =
      verification_measurement f (first :: rest') ∧
    verification_measurement f (first :: rest) =
      some (gbd_aux true (transform_apply_scale (set_scale f first))) := by
  constructor <;> simp [verification_measurement, rescale_step]

/-- C8: `Vector` is bound only as a local of `main` (line 144) and never in
the module scope that `get_bounding_dimensions` resolves names in, so every
call of the function on an object with a (non-empty, in Blender always
eight-cornered) bounding box raises `NameError`; consequently whenever
the import succeeds with a non-empty scene, `rescale_prop` reaches the
measurement at line 130 and the `NameError` escapes it - after the scale
step ran and before export is attempted. -/
theorem C8_vector_unbound_nameError (o : Obj) (env : Env) (filename : String)
    (scale_factor : ℚ) (first : Obj) (others : List Obj)
    (ho : o.bound_box ≠ [])
    (hex : env.fileExists (inputPath filename) = true)
    (himp : env.importResult (inputPath filename) = Except.ok (first :: others))
    (hbb : first.bound_box ≠ []) :
    get_bounding_dimensions o = Except.error PyErr.nameError ∧
    rescale_propT env filename scale_factor =
      (Except.error PyErr.nameError, ⟨true, true, false⟩) := by
  refine ⟨gbd_nameError_of_ne_nil o ho, ?_⟩
  have hg : get_bounding_dimensions
      (transform_apply_scale (set_scale scale_factor first)) =
      Except.error PyErr.nameError := by
    apply gbd_nameError_of_ne_nil
    simpa [transform_apply_scale, set_scale] using hbb
  simp [rescale_propT, hex, himp, rescale_step, hg]

/-- Witness for C8 at the unit cube. -/
theorem C8_vector_unbound_nameError_witness :
    get_bounding_dimensions unitCube = Except.error PyErr.nameError ∧
    rescale_propT envImportsCube fileB 2 =
      (Except.error PyErr.nameError, ⟨true, true, false⟩) :=
  C8_vector_unbound_nameError unitCube envImportsCube fileB 2 unitCube []
    (by simp [unitCube, cubeCorners]) rfl rfl (by simp [unitCube, cubeCorners])

/-- C9: at the end of every completed run the printed counters partition the
configuration: success plus failed plus skipped equals the number of
configured entries, and each counter (a natural number) is non-negative. -/
theorem C9_counters_sum_to_config_size (env : Env) (skip : List String)
    (entries : List (String × ℚ)) (res : Counters) (invOut : List String)
    (h : mainLoopT env skip entries ⟨0, 0, 0⟩ [] = (Except.ok res, invOut)) :
    res.success_count + res.failed_count + res.skipped_count = entries.length ∧
    0 ≤ res.success_count ∧ 0 ≤ res.failed_count ∧ 0 ≤ res.skipped_count := by
  obtain ⟨-, -, hsum⟩ := mainLoopT_ok_spec env skip entries ⟨0, 0, 0⟩ [] invOut res h
  exact ⟨by simpa using hsum, Nat.zero_le _, Nat.zero_le _, Nat.zero_le _⟩

/-- Witness for C9: a completed two-entry run (one failed, one skipped). -/
theorem C9_counters_sum_to_config_size_witness :
    (Counters.mk 0 1 1).success_count + (Counters.mk 0 1 1).failed_count +
      (Counters.mk 0 1 1).skipped_count =
      ([(fileA, (1:ℚ)), (fileSkip, 1)] : List (String × ℚ)).length ∧
    0 ≤ (Counters.mk 0 1 1).success_count ∧
    0 ≤ (Counters.mk 0 1 1).failed_count ∧
    0 ≤ (Counters.mk 0 1 1).skipped_count :=
  C9_counters_sum_to_config_size envAllMissing SKIP_PROPS
    [(fileA, 1), (fileSkip, 1)] ⟨0, 1, 1⟩ [fileA] rfl

/-- C10: when the import operator succeeds but the scene holds zero objects,
the check at line 115 returns `False`: the entry is counted failed and the
trace records that neither the rescale step nor the export operator ran. -/
theorem C10_empty_scene_counted_failed (env : Env) (skip : List String)
    (filename : String) (scale_factor : ℚ) (rest : List (String × ℚ))
    (st : Counters) (inv : List String)
    (hns : filename ∉ skip)
    (hex : env.fileExists (inputPath filename) = true)
    (himp : env.importResult (inputPath filename) = Except.ok []) :
    rescale_propT env filename scale_factor =
      (Except.ok false, ⟨true, false, false⟩) ∧
    mainLoopT env skip ((filename, scale_factor) :: rest) st inv =
      mainLoopT env skip rest { st with failed_count := st.failed_count + 1 }
        (inv ++ [filename]) := by
  have h1 : rescale_propT env filename scale_factor =
      (Except.ok false, ⟨true, false, false⟩) := by
    simp [rescale_propT, hex, himp, rescale_step]
  exact ⟨h1, by simp [mainLoopT, hns, rescale_prop, h1]⟩

/-- Witness for C10 at a concrete empty import. -/
theorem C10_empty_scene_counted_failed_witness :
    rescale_propT envImportsNothing fileA 1 =
      (Except.ok false, ⟨true, false, false⟩) ∧
    mainLoopT envImportsNothing SKIP_PROPS [(fileA, 1)] ⟨0, 0, 0⟩ [] =
      mainLoopT envImportsNothing SKIP_PROPS [] ⟨0, 1, 0⟩ [fileA] :=
  C10_empty_scene_counted_failed envImportsNothing SKIP_PROPS fileA 1 []
    ⟨0, 0, 0⟩ [] (by decide) rfl rfl
